import Mathlib

set_option maxHeartbeats 1000000

/-!
Shallow embedding of the oic-scripts repository (get_connections_dev.py,
get_integrations_dev.py, import_integrations_dev.py) and proofs about its
normalizers, paginators, HTTP fetcher and the package import pipeline.
-/

/-- A parsed JSON value as the Python scripts see it after response.json():
Python None (JSON null), strings, booleans, integers, dictionaries and lists. -/
inductive PyVal where
  | none : PyVal
  | str : String → PyVal
  | bool : Bool → PyVal
  | int : Int → PyVal
  | dict : List (String × PyVal) → PyVal
  | list : List PyVal → PyVal

/-- Python dict.get(key, default): the stored value when the key is present
(a stored None is returned as-is, not replaced by the default), the default
when the key is absent. -/
def pyGet (es : List (String × PyVal)) (k : String) (d : PyVal) : PyVal :=
  (es.lookup k).getD d

/-- Calling .get(key, default) on an arbitrary Python value: succeeds only on a
dictionary; on anything else (in particular on None) Python raises
AttributeError. Models item.get("adapterType", \x7b\x7d).get("displayName", "") where the
inner value may not be a dict. -/
def pyGetOn (v : PyVal) (k : String) (d : PyVal) : Except String PyVal :=
  match v with
  | .dict es => .ok (pyGet es k d)
  | _ => .error "AttributeError"

/-- The list of known host-property display names from
get_connections_dev.py process_items. -/
def hostPriorityNames : List String :=
  ["WSDL URL", "Connection URL", "Host", "ERP Cloud Host", "FTP Server Host Address"]

/-- The membership test of the host_url generator:
prop.get("displayName") in [known names]. A missing displayName gives Python
None, which is not equal to any of the strings, so the test is False; only a
string equal to one of the known names passes. -/
def hostNameMatches (es : List (String × PyVal)) : Bool :=
  match pyGet es "displayName" .none with
  | .str s => hostPriorityNames.contains s
  | _ => false

/-- host_url selection from get_connections_dev.py process_items:
next((prop.get("propertyValue") for prop in cps if prop.get("displayName") in
[known names]), ""). The generator walks cps in the item's own order and yields
the FIRST property whose displayName is one of the known names; its
propertyValue (Python None when that key is absent, since .get has no default
here); "" when no property matches. A non-dict element raises AttributeError
when .get is called on it. -/
def selectHostUrl : List PyVal → Except String PyVal
  | [] => .ok (.str "")
  | .dict es :: ps =>
      if hostNameMatches es then .ok (pyGet es "propertyValue" .none)
      else selectHostUrl ps
  | _ :: _ => .error "AttributeError"

/-- One iteration of process_items in get_connections_dev.py: the normalized
connection row as an ordered field list. Errors (Except.error) exactly where
Python raises: .get on a non-dict adapterType value, iterating a non-list
connectionProperties value, or .get on a non-dict property element. -/
def processConnectionItem (item : PyVal) : Except String (List (String × PyVal)) :=
  match item with
  | .dict es =>
    match pyGetOn (pyGet es "adapterType" (.dict [])) "displayName" (.str "") with
    | .error e => .error e
    | .ok adapter =>
      match pyGet es "connectionProperties" (.list []) with
      | .list cps =>
        match selectHostUrl cps with
        | .error e => .error e
        | .ok host =>
            .ok [("code", pyGet es "id" (.str "")),
                 ("adapter_type", adapter),
                 ("policy", pyGet es "securityPolicy" (.str "")),
                 ("status", pyGet es "status" (.str "")),
                 ("usage", pyGet es "usage" (.str "")),
                 ("usage_active", pyGet es "usageActive" (.str "")),
                 ("host_url", host)]
      | _ => .error "TypeError"
  | _ => .error "AttributeError"

/-- One writer.writerow call of process_items in get_integrations_dev.py: the
normalized integration row as an ordered field list. -/
def processIntegrationItem (item : PyVal) : Except String (List (String × PyVal)) :=
  match item with
  | .dict es =>
      .ok [("code", pyGet es "code" (.str "")),
           ("name", pyGet es "name" (.str "")),
           ("id", pyGet es "id" (.str "")),
           ("status", pyGet es "status" (.str "")),
           ("endpoint", pyGet es "endPointURI" (.str "")),
           ("description", pyGet es "description" (.str ""))]
  | _ => .error "AttributeError"

/-- Reformulation used to state the amended host-url claim: the propertyValue
of the first property in the item's own connectionProperties order whose
displayName is one of the known host names; "" when no property matches. -/
def hostUrlByItemOrder (ps : List PyVal) : PyVal :=
  match ps.find? (fun p => match p with
      | .dict es => hostNameMatches es
      | _ => false) with
  | some (.dict es) => pyGet es "propertyValue" .none
  | _ => .str ""

/-- Which of the two candidate base hosts a page request is issued against.
For get_connections_dev.py: primary is the instance host
(https://INSTANCE.integration.REGION.ocp.oraclecloud.com, the old_url) and
secondary is the design host (https://design.integration.REGION..., the
new_url). For get_integrations_dev.py: primary is the instance host (old_url)
and secondary is the configured base_url host (new_url). -/
inductive Host where
  | primary : Host
  | secondary : Host
deriving DecidableEq, Repr

/-- A page request issued by one of the pagination loops: which host variant
the URL was built against and the offset query parameter. -/
structure Req where
  host : Host
  offset : Nat
deriving DecidableEq, Repr

/-- A fetched page as the loops consume it: the items list and the hasMore
flag read from the response JSON (response_data.get("items", []) and
response_data.get("hasMore", False), absent fields defaulting to [] / False). -/
structure Page (α : Type) where
  items : List α
  hasMore : Bool

/-- The while-loop of main in get_connections_dev.py, driven by an abstract
server mapping each request to either a RequestException message or a page.
One loop iteration fetches old_url (primary host) and, if the sweep continues,
new_url (secondary host) at offset+limit. Returns none when the fuel bound is
hit (the Python loop would still be running), otherwise: the accumulated
processed items (all_processed_items), the requests issued in order, and the
recorded sweep error message if any (the errors list holds at most one entry,
since the loop breaks right after appending). -/
def connLoop {α β : Type} (server : Req → Except String (Page α))
    (process : List α → List β) (limit : Nat) :
    Nat → Nat → Option (List β × List Req × Option String)
  | 0, _ => Option.none
  | fuel + 1, offset =>
    match server ⟨.primary, offset⟩ with
    | .error e =>
        some ([], [⟨.primary, offset⟩], some ("Error fetching data from old URL: " ++ e))
    | .ok page =>
      if page.items.isEmpty then some ([], [⟨.primary, offset⟩], Option.none)
      else if !page.hasMore then
        some (process page.items, [⟨.primary, offset⟩], Option.none)
      else
        match server ⟨.secondary, offset + limit⟩ with
        | .error e =>
            some (process page.items, [⟨.primary, offset⟩, ⟨.secondary, offset + limit⟩],
              some ("Error fetching data from new URL: " ++ e))
        | .ok page2 =>
          if page2.items.isEmpty then
            some (process page.items, [⟨.primary, offset⟩, ⟨.secondary, offset + limit⟩],
              Option.none)
          else if !page2.hasMore then
            some (process page.items ++ process page2.items,
              [⟨.primary, offset⟩, ⟨.secondary, offset + limit⟩], Option.none)
          else
            match connLoop server process limit fuel (offset + limit + limit) with
            | Option.none => Option.none
            | some (acc, reqs, err) =>
                some (process page.items ++ process page2.items ++ acc,
                  ⟨.primary, offset⟩ :: ⟨.secondary, offset + limit⟩ :: reqs, err)

/-- The tail of main in get_connections_dev.py after the sweep: if the errors
list is non-empty the errors are printed and write_to_csv is never called
(no output file content); otherwise write_to_csv writes the collected rows.
Result: none when the sweep ran out of fuel, some Option.none when errors
suppressed the write, some (some rows) when the rows were written. -/
def connMain {α β : Type} (server : Req → Except String (Page α))
    (process : List α → List β) (fuel : Nat) : Option (Option (List β)) :=
  match connLoop server process 100 fuel 0 with
  | Option.none => Option.none
  | some (_, _, some _) => some Option.none
  | some (acc, _, Option.none) => some (some acc)

/-- The while-loop of main in get_integrations_dev.py, same request structure
as the connections loop (old_url on the instance host, then new_url built from
the configured base_url with integrationInstance appended): rows are written to
the CSV as pages arrive. Returns the rows written so far, the requests issued,
and the caught RequestException message if one aborted the sweep. -/
def intLoop {α β : Type} (server : Req → Except String (Page α))
    (process : List α → List β) (limit : Nat) :
    Nat → Nat → Option (List β × List Req × Option String)
  | 0, _ => Option.none
  | fuel + 1, offset =>
    match server ⟨.primary, offset⟩ with
    | .error e => some ([], [⟨.primary, offset⟩], some e)
    | .ok page =>
      if page.items.isEmpty then some ([], [⟨.primary, offset⟩], Option.none)
      else if !page.hasMore then
        some (process page.items, [⟨.primary, offset⟩], Option.none)
      else
        match server ⟨.secondary, offset + limit⟩ with
        | .error e =>
            some (process page.items, [⟨.primary, offset⟩, ⟨.secondary, offset + limit⟩],
              some e)
        | .ok page2 =>
          if page2.items.isEmpty then
            some (process page.items, [⟨.primary, offset⟩, ⟨.secondary, offset + limit⟩],
              Option.none)
          else if !page2.hasMore then
            some (process page.items ++ process page2.items,
              [⟨.primary, offset⟩, ⟨.secondary, offset + limit⟩], Option.none)
          else
            match intLoop server process limit fuel (offset + limit + limit) with
            | Option.none => Option.none
            | some (acc, reqs, err) =>
                some (process page.items ++ process page2.items ++ acc,
                  ⟨.primary, offset⟩ :: ⟨.secondary, offset + limit⟩ :: reqs, err)

/-- The on-disk CSV produced by get_integrations_dev.py main: the writer is
created (header written) before the loop, rows are streamed during the loop,
and the finally block closes the file whether or not a RequestException was
caught — so the file always holds the header plus every row written before
the sweep ended or failed. Result: none when the sweep ran out of fuel,
otherwise the rows present in the file after the run. -/
def intFileRows {α β : Type} (server : Req → Except String (Page α))
    (process : List α → List β) (fuel : Nat) : Option (List β) :=
  match intLoop server process 100 fuel 0 with
  | Option.none => Option.none
  | some (rows, _, _) => some rows

/-- HTTP method of an upload request in import_integrations_dev.py. -/
inductive Method where
  | post : Method
  | put : Method
deriving DecidableEq, Repr

/-- One call to upload_file in import_integrations_dev.py: the method, the URL
it targets and the multipart payload (identified by the file path it streams). -/
structure UpReq where
  method : Method
  url : String
  payload : String
deriving DecidableEq, Repr

/-- Character-list test that the first list is an initial run of the second;
used to model Python str.startswith and str.endswith on code points. -/
def charsLeadIn : List Char → List Char → Bool
  | [], _ => true
  | _ :: _, [] => false
  | p :: ps, c :: cs => p = c && charsLeadIn ps cs

/-- Python str.startswith on code points. -/
def str_startswith (s pat : String) : Bool :=
  charsLeadIn pat.data s.data

/-- Python str.endswith on code points. -/
def str_endswith (s pat : String) : Bool :=
  charsLeadIn pat.data.reverse s.data.reverse

/-- os.path.basename for POSIX paths: everything after the last slash. -/
def basename (p : String) : String :=
  String.mk ((p.data.reverse.takeWhile (fun c => c ≠ '/')).reverse)

/-- The request upload_file builds: requests.request(method, url, ...) with
url = base_url + api_path + "?integrationInstance=" + instanceName and the file at
filepath as payload. The method is the only thing that varies between the POST
attempt and the PUT retry. -/
def upload_file_req (filepath base_url instanceName api_path : String) (m : Method) : UpReq :=
  ⟨m, base_url ++ api_path ++ "?integrationInstance=" ++ instanceName, filepath⟩

/-- import_integration from import_integrations_dev.py, driven by an abstract
server mapping each upload request to either a network-level exception message
or an HTTP status code. Returns the [name, status, message] row together with
the requests issued, or propagates the exception (there is no try/except in
this function, so a raised exception escapes it). -/
def import_integration (filepath base_url instanceName api_path : String)
    (server : UpReq → Except String Nat) : Except String (List String × List UpReq) :=
  match server (upload_file_req filepath base_url instanceName api_path .post) with
  | .error e => .error e
  | .ok st =>
    if st = 200 ∨ st = 204 then
      .ok ([basename filepath, "SUCCESS", "Imported"],
           [upload_file_req filepath base_url instanceName api_path .post])
    else if st = 409 then
      match server (upload_file_req filepath base_url instanceName api_path .put) with
      | .error e => .error e
      | .ok st2 =>
        if st2 = 200 ∨ st2 = 204 then
          .ok ([basename filepath, "SUCCESS", "Replaced"],
               [upload_file_req filepath base_url instanceName api_path .post,
                upload_file_req filepath base_url instanceName api_path .put])
        else
          .ok ([basename filepath, "ERROR", toString st2],
               [upload_file_req filepath base_url instanceName api_path .post,
                upload_file_req filepath base_url instanceName api_path .put])
    else
      .ok ([basename filepath, "ERROR", toString st],
           [upload_file_req filepath base_url instanceName api_path .post])

/-- The for-loop body of import_integrations_from_directory: walk the directory
listing, keep files ending in ".iar", call import_integration on each and
collect the result rows. There is no try/except around the call, so an
exception raised while uploading one file propagates out of the whole loop,
dropping every collected row and skipping every remaining file. -/
def importBatchGo (directory base_url instanceName api_path : String)
    (server : String → UpReq → Except String Nat) :
    List String → Except String (List (List String))
  | [] => .ok []
  | f :: fs =>
    if str_endswith f ".iar" then
      match import_integration (directory ++ "/" ++ f) base_url instanceName api_path (server f) with
      | .error e => .error e
      | .ok (row, _) =>
        match importBatchGo directory base_url instanceName api_path server fs with
        | .error e => .error e
        | .ok rest => .ok (row :: rest)
    else importBatchGo directory base_url instanceName api_path server fs

/-- import_integrations_from_directory from import_integrations_dev.py: the
header row followed by one row per processed .iar file, or the propagated
exception. files is the directory listing (os.listdir order); server gives
each file its per-request response. -/
def import_integrations_from_directory (directory base_url instanceName api_path : String)
    (files : List String) (server : String → UpReq → Except String Nat) :
    Except String (List (List String)) :=
  match importBatchGo directory base_url instanceName api_path server files with
  | .error e => .error e
  | .ok rows => .ok (["INTEGRATION", "STATUS", "MESSAGE"] :: rows)

/-- An HTTP response as fetch_data inspects it: the status code, the Location
response header when present, and the parsed JSON body. -/
structure HResp where
  status : Nat
  location : Option String
  body : PyVal

/-- The error raised out of fetch_data: a network-level RequestException with
its message, or the HTTPError from response.raise_for_status carrying the
final HTTP status. -/
inductive FetchErr where
  | net : String → FetchErr
  | http : Nat → FetchErr

/-- requests' Response.raise_for_status: raises HTTPError exactly when the
status code is in 400..599 (client or server error); every other status,
including 1xx and 3xx, passes without raising. -/
def raise_for_status (status : Nat) : Except FetchErr Unit :=
  if 400 ≤ status ∧ status < 600 then .error (.http status) else .ok ()

/-- fetch_data from get_connections_dev.py / get_integrations_dev.py (the two
copies are identical), driven by an abstract server mapping each requested URL
to a network error or a response. Issues session.get(url) with redirects
disabled; on a 307 first response it issues exactly one follow-up
session.get to the Location header value (session.get(None) raises when the
header is absent); then raise_for_status and response.json(). Returns the
outcome together with the URLs passed to session.get, in order. -/
def fetch_data (server : String → Except String HResp) (url : String) :
    Except FetchErr PyVal × List String :=
  match server url with
  | .error e => (.error (.net e), [url])
  | .ok r =>
    if r.status = 307 then
      match r.location with
      | some loc =>
        match server loc with
        | .error e => (.error (.net e), [url, loc])
        | .ok r2 =>
          match raise_for_status r2.status with
          | .error e => (.error e, [url, loc])
          | .ok _ => (.ok r2.body, [url, loc])
      | Option.none => (.error (.net "MissingSchema"), [url])
    else
      match raise_for_status r.status with
      | .error e => (.error e, [url])
      | .ok _ => (.ok r.body, [url])

/-- ensure_https from import_integrations_dev.py: a base_url already starting
with "https://" is returned unchanged; otherwise "https://" is prepended to
base_url.lstrip('http://'). Python's str.lstrip takes a SET of characters:
it removes every leading character belonging to the set of h, t, p, colon,
slash, not the literal "http://" run. -/
def ensure_https (base_url : String) : String :=
  if str_startswith base_url "https://" then base_url
  else "https://" ++
    String.mk (base_url.toList.dropWhile fun c =>
      c = 'h' ∨ c = 't' ∨ c = 'p' ∨ c = ':' ∨ c = '/')

/-- Restatement of the claimed behaviour of ensure_https in the claim's own
words, to be compared with the source definition: inputs starting with
"https://" are unchanged; any other input gets "https://" prepended to the
input with all leading characters from the set given as a list removed. -/
def ensure_https_claimed (s : String) : String :=
  if str_startswith s "https://" then s
  else "https://" ++ String.mk (s.toList.dropWhile fun c => c ∈ ['h', 't', 'p', ':', '/'])

/-- The connection item from the claim's example: properties
[displayName "Host" / propertyValue "h1", displayName "WSDL URL" /
propertyValue "h2"] in that order. -/
def c1Item : PyVal :=
  .dict [("connectionProperties", .list
    [.dict [("displayName", .str "Host"), ("propertyValue", .str "h1")],
     .dict [("displayName", .str "WSDL URL"), ("propertyValue", .str "h2")]])]

/-- C1: the claim says the host_url of the example item is "h2" (priority-list
order wins over property order). The code returns "h1": the generator walks
the item's own property order and "Host" matches the membership test first. -/
theorem C1_counterexample :
    (processConnectionItem c1Item).map (fun row => row.lookup "host_url")
      = .ok (some (.str "h1"))
    ∧ PyVal.str "h1" ≠ PyVal.str "h2" := by
  refine ⟨rfl, fun h => ?_⟩
  injection h with h'
  exact absurd h' (by decide)

/-- On a property list whose elements are all dictionaries, the source's
host_url selector returns, without raising, the first match in the item's own
property order. -/
theorem selectHostUrl_eq_byItemOrder (ps : List PyVal)
    (h : ∀ p ∈ ps, ∃ es, p = PyVal.dict es) :
    selectHostUrl ps = .ok (hostUrlByItemOrder ps) := by
  induction ps with
  | nil => rfl
  | cons p ps ih =>
    obtain ⟨es, hes⟩ := h p (List.mem_cons_self p ps)
    subst hes
    by_cases hm : hostNameMatches es = true
    · simp [selectHostUrl, hostUrlByItemOrder, List.find?, hm]
    · rw [Bool.not_eq_true] at hm
      simp only [selectHostUrl, hostUrlByItemOrder, List.find?, hm, Bool.false_eq_true,
        if_false]
      have := ih (fun q hq => h q (List.mem_cons_of_mem _ hq))
      simpa [hostUrlByItemOrder] using this

/-- C1 (amended): for a connection item whose connectionProperties is a list of
dictionaries (and whose adapterType lookup does not raise), the row's host_url
is the propertyValue of the FIRST property in the item's own property order
whose displayName is one of the known names; "" when none matches. -/
theorem C1_amended (es : List (String × PyVal)) (cps : List PyVal)
    (hcps : pyGet es "connectionProperties" (.list []) = .list cps)
    (hdicts : ∀ p ∈ cps, ∃ fs, p = PyVal.dict fs)
    (hadapter : ∃ fs, pyGet es "adapterType" (.dict []) = .dict fs) :
    (processConnectionItem (.dict es)).map (fun row => row.lookup "host_url")
      = .ok (some (hostUrlByItemOrder cps)) := by
  obtain ⟨fs, hfs⟩ := hadapter
  simp [processConnectionItem, hfs, pyGetOn, hcps,
    selectHostUrl_eq_byItemOrder cps hdicts, Except.map, List.lookup]

/-- C1 (amended) witness: on the claim's example item, the selected host_url is
"h1", the first match in the item's own property order. -/
theorem C1_witness :
    (processConnectionItem c1Item).map (fun row => row.lookup "host_url")
      = .ok (some (PyVal.str "h1")) :=
  C1_amended
    [("connectionProperties", .list
      [.dict [("displayName", .str "Host"), ("propertyValue", .str "h1")],
       .dict [("displayName", .str "WSDL URL"), ("propertyValue", .str "h2")]])]
    [.dict [("displayName", .str "Host"), ("propertyValue", .str "h1")],
     .dict [("displayName", .str "WSDL URL"), ("propertyValue", .str "h2")]]
    rfl
    (by intro p hp
        simp only [List.mem_cons, List.not_mem_nil, or_false] at hp
        rcases hp with h | h
        · exact ⟨_, h⟩
        · exact ⟨_, h⟩)
    ⟨[], rfl⟩

/-- C7: the claim says a source field that is absent OR NULL is rendered as the
empty string, never a null value in the row. On the item with id set to JSON
null, item.get("id", "") returns Python None (the default only applies to an
absent key), so the row's code field is None, not "". -/
theorem C7_counterexample :
    (processConnectionItem (.dict [("id", PyVal.none)])).map (fun row => row.lookup "code")
      = .ok (some PyVal.none)
    ∧ PyVal.none ≠ PyVal.str "" :=
  ⟨rfl, fun h => nomatch h⟩

/-- C7 (amended): for every item record, the connections normalizer either
raises or produces a row with exactly the declared field set in order, each
field holding its dict.get value (adapter_type the displayName of the
adapterType dict, host_url the selector's result) — the default "" only for
an ABSENT key; a present null value passes through as null. The integrations
normalizer always produces its declared row. Conjuncts 3 and 4 state dict.get
itself: absent key gives the default, null value gives null. Conjunct 5: a
null adapterType raises AttributeError in the nested lookup. Conjunct 6: a
matched connection property whose propertyValue is absent yields null
host_url. -/
theorem C7_amended :
    (∀ es : List (String × PyVal),
      (∃ e, processConnectionItem (.dict es) = .error e) ∨
      (∃ fa cps, pyGet es "adapterType" (.dict []) = .dict fa
        ∧ pyGet es "connectionProperties" (.list []) = .list cps
        ∧ ∃ host, selectHostUrl cps = .ok host
          ∧ processConnectionItem (.dict es) =
            .ok [("code", pyGet es "id" (.str "")),
                 ("adapter_type", pyGet fa "displayName" (.str "")),
                 ("policy", pyGet es "securityPolicy" (.str "")),
                 ("status", pyGet es "status" (.str "")),
                 ("usage", pyGet es "usage" (.str "")),
                 ("usage_active", pyGet es "usageActive" (.str "")),
                 ("host_url", host)]))
    ∧ (∀ es : List (String × PyVal),
        processIntegrationItem (.dict es) =
          .ok [("code", pyGet es "code" (.str "")),
               ("name", pyGet es "name" (.str "")),
               ("id", pyGet es "id" (.str "")),
               ("status", pyGet es "status" (.str "")),
               ("endpoint", pyGet es "endPointURI" (.str "")),
               ("description", pyGet es "description" (.str ""))])
    ∧ (∀ (es : List (String × PyVal)) (k : String) (d : PyVal),
        es.lookup k = Option.none → pyGet es k d = d)
    ∧ (∀ (es : List (String × PyVal)) (k : String) (d : PyVal),
        es.lookup k = some PyVal.none → pyGet es k d = PyVal.none)
    ∧ (∀ es : List (String × PyVal),
        es.lookup "adapterType" = some PyVal.none →
        processConnectionItem (.dict es) = .error "AttributeError")
    ∧ (∀ (es fs : List (String × PyVal)) (ps : List PyVal),
        pyGet es "connectionProperties" (.list []) = .list (PyVal.dict fs :: ps) →
        hostNameMatches fs = true →
        fs.lookup "propertyValue" = Option.none →
        (∃ fa, pyGet es "adapterType" (.dict []) = PyVal.dict fa) →
        (processConnectionItem (.dict es)).map (fun row => row.lookup "host_url")
          = .ok (some PyVal.none)) := by
  refine ⟨?_, ?_, ?_, ?_, ?_, ?_⟩
  · intro es
    cases hA : pyGet es "adapterType" (.dict []) with
    | dict fa =>
      cases hC : pyGet es "connectionProperties" (.list []) with
      | list cps =>
        cases hS : selectHostUrl cps with
        | error e =>
            exact Or.inl ⟨e, by simp [processConnectionItem, pyGetOn, hA, hC, hS]⟩
        | ok host =>
            exact Or.inr ⟨fa, cps, rfl, rfl, host, hS,
              by simp [processConnectionItem, pyGetOn, hA, hC, hS]⟩
      | none =>
          exact Or.inl ⟨"TypeError", by simp [processConnectionItem, pyGetOn, hA, hC]⟩
      | str s =>
          exact Or.inl ⟨"TypeError", by simp [processConnectionItem, pyGetOn, hA, hC]⟩
      | bool b =>
          exact Or.inl ⟨"TypeError", by simp [processConnectionItem, pyGetOn, hA, hC]⟩
      | int n =>
          exact Or.inl ⟨"TypeError", by simp [processConnectionItem, pyGetOn, hA, hC]⟩
      | dict ds =>
          exact Or.inl ⟨"TypeError", by simp [processConnectionItem, pyGetOn, hA, hC]⟩
    | none =>
        exact Or.inl ⟨"AttributeError", by simp [processConnectionItem, pyGetOn, hA]⟩
    | str s =>
        exact Or.inl ⟨"AttributeError", by simp [processConnectionItem, pyGetOn, hA]⟩
    | bool b =>
        exact Or.inl ⟨"AttributeError", by simp [processConnectionItem, pyGetOn, hA]⟩
    | int n =>
        exact Or.inl ⟨"AttributeError", by simp [processConnectionItem, pyGetOn, hA]⟩
    | list l =>
        exact Or.inl ⟨"AttributeError", by simp [processConnectionItem, pyGetOn, hA]⟩
  · intro es
    rfl
  · intro es k d h
    simp [pyGet, h]
  · intro es k d h
    simp [pyGet, h]
  · intro es h
    have hA : pyGet es "adapterType" (.dict []) = PyVal.none := by simp [pyGet, h]
    simp [processConnectionItem, pyGetOn, hA]
  · intro es fs ps hcps hmatch hnone hfa
    obtain ⟨fa, hfa⟩ := hfa
    have hsel : selectHostUrl (PyVal.dict fs :: ps) = .ok PyVal.none := by
      simp [selectHostUrl, hmatch, pyGet, hnone]
    simp [processConnectionItem, pyGetOn, hfa, hcps, hsel, Except.map, List.lookup]

/-- C7 (amended) witness: dict.get on a null-valued id gives null back (not
""); the integrations normalizer at that record yields exactly its declared
row; a null adapterType makes the connections normalizer raise; a matched
"Host" property without propertyValue yields null host_url. -/
theorem C7_witness :
    pyGet [("id", PyVal.none)] "id" (.str "") = PyVal.none
    ∧ processIntegrationItem (.dict [("id", PyVal.none)]) =
        .ok [("code", .str ""), ("name", .str ""), ("id", PyVal.none),
             ("status", .str ""), ("endpoint", .str ""), ("description", .str "")]
    ∧ processConnectionItem (.dict [("adapterType", PyVal.none)])
        = .error "AttributeError"
    ∧ (processConnectionItem (.dict [("connectionProperties",
          .list [.dict [("displayName", .str "Host")]])])).map
        (fun row => row.lookup "host_url") = .ok (some PyVal.none) :=
  ⟨C7_amended.2.2.2.1 [("id", PyVal.none)] "id" (.str "") rfl,
   by rw [C7_amended.2.1 [("id", PyVal.none)]]; rfl,
   C7_amended.2.2.2.2.1 [("adapterType", PyVal.none)] rfl,
   C7_amended.2.2.2.2.2
     [("connectionProperties", .list [.dict [("displayName", .str "Host")]])]
     [("displayName", .str "Host")] [] rfl rfl rfl ⟨[], rfl⟩⟩

/-- C5: pagination termination for both pipelines, at both page positions of a
sweep. A fetched page with an empty item list ends the sweep with nothing
appended, whatever its hasMore flag says — at the primary position (clause 1)
and at the secondary position (clause 3a). A page with non-empty items and
hasMore = false has all its processed items appended before the sweep stops
(clauses 2 and 3b). Otherwise the sweep advances offset by limit and
continues: after a continuing primary page the next request targets the
secondary host at offset + limit (named in the traces of clauses 3a-3c), and
after a continuing secondary page the loop recurses at offset + 2*limit with
both pages' processed items preceding everything the continuation collects —
clause 3c states the result as exact equations on the recursive call. -/
theorem C5_pagination {α β : Type} (server : Req → Except String (Page α))
    (process : List α → List β) (limit fuel offset : Nat) (page : Page α)
    (hpage : server ⟨.primary, offset⟩ = .ok page) :
    (page.items = [] →
      connLoop server process limit (fuel + 1) offset
        = some ([], [⟨.primary, offset⟩], Option.none)
      ∧ intLoop server process limit (fuel + 1) offset
        = some ([], [⟨.primary, offset⟩], Option.none))
    ∧ (page.items ≠ [] → page.hasMore = false →
      connLoop server process limit (fuel + 1) offset
        = some (process page.items, [⟨.primary, offset⟩], Option.none)
      ∧ intLoop server process limit (fuel + 1) offset
        = some (process page.items, [⟨.primary, offset⟩], Option.none))
    ∧ (page.items ≠ [] → page.hasMore = true →
      ∀ page2 : Page α, server ⟨.secondary, offset + limit⟩ = .ok page2 →
        (page2.items = [] →
          connLoop server process limit (fuel + 1) offset
            = some (process page.items,
                [⟨.primary, offset⟩, ⟨.secondary, offset + limit⟩], Option.none)
          ∧ intLoop server process limit (fuel + 1) offset
            = some (process page.items,
                [⟨.primary, offset⟩, ⟨.secondary, offset + limit⟩], Option.none))
        ∧ (page2.items ≠ [] → page2.hasMore = false →
          connLoop server process limit (fuel + 1) offset
            = some (process page.items ++ process page2.items,
                [⟨.primary, offset⟩, ⟨.secondary, offset + limit⟩], Option.none)
          ∧ intLoop server process limit (fuel + 1) offset
            = some (process page.items ++ process page2.items,
                [⟨.primary, offset⟩, ⟨.secondary, offset + limit⟩], Option.none))
        ∧ (page2.items ≠ [] → page2.hasMore = true →
          (connLoop server process limit fuel (offset + limit + limit) = Option.none →
            connLoop server process limit (fuel + 1) offset = Option.none)
          ∧ (∀ (acc : List β) (reqs : List Req) (err : Option String),
              connLoop server process limit fuel (offset + limit + limit)
                = some (acc, reqs, err) →
              connLoop server process limit (fuel + 1) offset
                = some (process page.items ++ process page2.items ++ acc,
                    ⟨.primary, offset⟩ :: ⟨.secondary, offset + limit⟩ :: reqs, err))
          ∧ (intLoop server process limit fuel (offset + limit + limit) = Option.none →
            intLoop server process limit (fuel + 1) offset = Option.none)
          ∧ (∀ (acc : List β) (reqs : List Req) (err : Option String),
              intLoop server process limit fuel (offset + limit + limit)
                = some (acc, reqs, err) →
              intLoop server process limit (fuel + 1) offset
                = some (process page.items ++ process page2.items ++ acc,
                    ⟨.primary, offset⟩ :: ⟨.secondary, offset + limit⟩ :: reqs, err)))) := by
  obtain ⟨items, hasMore⟩ := page
  refine ⟨?_, ?_, ?_⟩
  · intro hempty
    simp only at hempty
    subst hempty
    exact ⟨by simp [connLoop, hpage], by simp [intLoop, hpage]⟩
  · intro hne hfalse
    simp only at hne hfalse
    subst hfalse
    cases items with
    | nil => exact absurd rfl hne
    | cons a as => exact ⟨by simp [connLoop, hpage], by simp [intLoop, hpage]⟩
  · intro hne htrue page2 hs2
    simp only at hne htrue
    subst htrue
    cases items with
    | nil => exact absurd rfl hne
    | cons a as =>
      obtain ⟨items2, hm2⟩ := page2
      refine ⟨?_, ?_, ?_⟩
      · intro hempty2
        simp only at hempty2
        subst hempty2
        exact ⟨by simp [connLoop, hpage, hs2], by simp [intLoop, hpage, hs2]⟩
      · intro hne2 hfalse2
        simp only at hne2 hfalse2
        subst hfalse2
        cases items2 with
        | nil => exact absurd rfl hne2
        | cons b bs =>
          exact ⟨by simp [connLoop, hpage, hs2], by simp [intLoop, hpage, hs2]⟩
      · intro hne2 htrue2
        simp only at hne2 htrue2
        subst htrue2
        cases items2 with
        | nil => exact absurd rfl hne2
        | cons b bs =>
          refine ⟨?_, ?_, ?_, ?_⟩
          · intro hr
            simp [connLoop, hpage, hs2, hr]
          · intro acc reqs err hr
            simp [connLoop, hpage, hs2, hr]
          · intro hr
            simp [intLoop, hpage, hs2, hr]
          · intro acc reqs err hr
            simp [intLoop, hpage, hs2, hr]

/-- A server whose first page has one item and more data, and whose every
later page is empty with hasMore still true. -/
def c5aServer : Req → Except String (Page Nat) := fun r =>
  if r.offset = 0 then .ok ⟨[1], true⟩ else .ok ⟨[], true⟩

/-- A server whose first page has one item and more data, and whose every
later page has one item with hasMore = false. -/
def c5bServer : Req → Except String (Page Nat) := fun r =>
  if r.offset = 0 then .ok ⟨[1], true⟩ else .ok ⟨[2], false⟩

/-- C5 witness: an empty primary-position page stops the sweep with nothing
collected; an empty secondary-position page with hasMore = true stops the
sweep keeping only the first page's item (empty-page-wins at the odd
position); a secondary-position page with an item and hasMore = false has
that item appended before the sweep stops. -/
theorem C5_witness :
    connLoop (fun _ => .ok ⟨([] : List Nat), true⟩) (fun l => l) 100 1 0
      = some ([], [⟨Host.primary, 0⟩], Option.none)
    ∧ connLoop c5aServer (fun l => l) 100 1 0
      = some ([1], [⟨Host.primary, 0⟩, ⟨Host.secondary, 100⟩], Option.none)
    ∧ intLoop c5bServer (fun l => l) 100 1 0
      = some ([1, 2], [⟨Host.primary, 0⟩, ⟨Host.secondary, 100⟩], Option.none) :=
  ⟨((C5_pagination (fun _ => .ok ⟨([] : List Nat), true⟩) (fun l => l) 100 0 0
      ⟨[], true⟩ rfl).1 rfl).1,
   (((C5_pagination c5aServer (fun l => l) 100 0 0 ⟨[1], true⟩ rfl).2.2 (by simp) rfl
      ⟨[], true⟩ rfl).1 rfl).1,
   (((C5_pagination c5bServer (fun l => l) 100 0 0 ⟨[1], true⟩ rfl).2.2 (by simp) rfl
      ⟨[2], false⟩ rfl).2.1 (by simp) rfl).2⟩

/-- A server whose first page (primary host, offset 0) has one item with
hasMore = true, and whose second request fails with a network error. -/
def c3Server : Req → Except String (Page Nat) := fun r =>
  if r.offset = 0 then .ok ⟨[5], true⟩ else .error "boom"

/-- C3: the claim says a sweep-level fetch error suppresses all final output in
BOTH pipelines. The integrations pipeline streams rows to the CSV as pages
arrive, so when its second page request fails the file already holds the first
page's row: the sweep ended with a fetch error, yet the output file content is
the non-empty partial row set [5]. -/
theorem C3_counterexample :
    intLoop c3Server (fun l => l) 100 1 0
      = some ([5], [⟨Host.primary, 0⟩, ⟨Host.secondary, 100⟩], some "boom")
    ∧ intFileRows c3Server (fun l => l) 1 = some [5]
    ∧ ([5] : List Nat) ≠ [] :=
  ⟨rfl, rfl, by simp⟩

/-- C3 (amended): a sweep-level fetch error suppresses the final output only in
the connections pipeline (write_to_csv runs only when the errors list is
empty); the integrations pipeline streams, so after any sweep — aborted by an
error or not — the file holds exactly the rows collected before the sweep
ended. -/
theorem C3_amended :
    (∀ (α β : Type) (server : Req → Except String (Page α))
      (process : List α → List β) (fuel : Nat) (acc : List β) (reqs : List Req)
      (e : String),
      connLoop server process 100 fuel 0 = some (acc, reqs, some e) →
      connMain server process fuel = some Option.none)
    ∧ (∀ (α β : Type) (server : Req → Except String (Page α))
      (process : List α → List β) (fuel : Nat) (rows : List β) (reqs : List Req)
      (errOpt : Option String),
      intLoop server process 100 fuel 0 = some (rows, reqs, errOpt) →
      intFileRows server process fuel = some rows) := by
  constructor
  · intro α β server process fuel acc reqs e h
    simp [connMain, h]
  · intro α β server process fuel rows reqs errOpt h
    simp [intFileRows, h]

/-- C3 (amended) witness: on the concrete erroring server, the connections
pipeline writes nothing, while the integrations pipeline's file holds the
partial row set. -/
theorem C3_witness :
    connMain (fun _ => (.error "down" : Except String (Page Nat))) (fun l => l) 1
      = some Option.none
    ∧ intFileRows c3Server (fun l => l) 1 = some [5] :=
  ⟨C3_amended.1 Nat Nat (fun _ => .error "down") (fun l => l) 1 [] [⟨Host.primary, 0⟩]
      ("Error fetching data from old URL: " ++ "down") rfl,
   C3_amended.2 Nat Nat c3Server (fun l => l) 1 [5]
      [⟨Host.primary, 0⟩, ⟨Host.secondary, 100⟩] (some "boom") rfl⟩

/-- A server whose first page (offset 0) has one item with hasMore = true and
whose every later page is empty. -/
def c4Server : Req → Except String (Page Nat) := fun r =>
  if r.offset = 0 then .ok ⟨[7], true⟩ else .ok ⟨[], true⟩

/-- C4: the claim says the integrations pipeline issues every page request
against the primary host only. On a sweep whose first page has more data, the
second request the integrations loop issues is built from the configured
base_url — the secondary host — exactly like the connections loop. -/
theorem C4_counterexample :
    intLoop c4Server (fun l => l) 100 1 0
      = some ([7], [⟨Host.primary, 0⟩, ⟨Host.secondary, 100⟩], Option.none)
    ∧ Host.secondary ≠ Host.primary :=
  ⟨rfl, by decide⟩

/-- Requests alternate hosts: primary at even 0-based positions, secondary at
odd positions. -/
def hostAlternates (reqs : List Req) : Prop :=
  ∀ i, (h : i < reqs.length) →
    (reqs.get ⟨i, h⟩).host = if i % 2 = 0 then Host.primary else Host.secondary

/-- A single primary-host request alternates. -/
theorem hostAlternates_one (o : Nat) : hostAlternates [⟨Host.primary, o⟩] := by
  intro i h
  match i with
  | 0 => rfl
  | n + 1 => exact absurd h (by simp)

/-- A primary-host request followed by a secondary-host request alternates. -/
theorem hostAlternates_two (o1 o2 : Nat) :
    hostAlternates [⟨Host.primary, o1⟩, ⟨Host.secondary, o2⟩] := by
  intro i h
  match i with
  | 0 => rfl
  | 1 => rfl
  | n + 2 => exact absurd h (by simp)

/-- Prepending a primary-host and a secondary-host request to an alternating
list keeps it alternating. -/
theorem hostAlternates_cons2 (o1 o2 : Nat) (t : List Req) (ht : hostAlternates t) :
    hostAlternates (⟨Host.primary, o1⟩ :: ⟨Host.secondary, o2⟩ :: t) := by
  intro i h
  match i with
  | 0 => rfl
  | 1 => rfl
  | n + 2 =>
    have h' : n < t.length := by
      simp only [List.length_cons] at h
      omega
    have hn := ht n h'
    simpa [Nat.add_mod_right] using hn

/-- The request trace of the connections loop alternates hosts. -/
theorem connLoop_hostAlternates {α β : Type} (server : Req → Except String (Page α))
    (process : List α → List β) (limit : Nat) :
    ∀ (fuel offset : Nat) (acc : List β) (reqs : List Req) (err : Option String),
      connLoop server process limit fuel offset = some (acc, reqs, err) →
      hostAlternates reqs := by
  intro fuel
  induction fuel with
  | zero =>
    intro offset acc reqs err h
    exact absurd h (by simp [connLoop])
  | succ n ih =>
    intro offset acc reqs err h
    cases hs1 : server ⟨.primary, offset⟩ with
    | error e =>
      simp [connLoop, hs1] at h
      obtain ⟨-, h2, -⟩ := h
      subst h2
      exact hostAlternates_one offset
    | ok page =>
      cases he : page.items.isEmpty with
      | true =>
        simp [connLoop, hs1, he] at h
        obtain ⟨-, h2, -⟩ := h
        subst h2
        exact hostAlternates_one offset
      | false =>
        cases hm : page.hasMore with
        | false =>
          simp [connLoop, hs1, he, hm] at h
          obtain ⟨-, h2, -⟩ := h
          subst h2
          exact hostAlternates_one offset
        | true =>
          cases hs2 : server ⟨.secondary, offset + limit⟩ with
          | error e =>
            simp [connLoop, hs1, he, hm, hs2] at h
            obtain ⟨-, h2, -⟩ := h
            subst h2
            exact hostAlternates_two offset (offset + limit)
          | ok page2 =>
            cases he2 : page2.items.isEmpty with
            | true =>
              simp [connLoop, hs1, he, hm, hs2, he2] at h
              obtain ⟨-, h2, -⟩ := h
              subst h2
              exact hostAlternates_two offset (offset + limit)
            | false =>
              cases hm2 : page2.hasMore with
              | false =>
                simp [connLoop, hs1, he, hm, hs2, he2, hm2] at h
                obtain ⟨-, h2, -⟩ := h
                subst h2
                exact hostAlternates_two offset (offset + limit)
              | true =>
                cases hr : connLoop server process limit n (offset + limit + limit) with
                | none =>
                  exact absurd h (by simp [connLoop, hs1, he, hm, hs2, he2, hm2, hr])
                | some out =>
                  obtain ⟨acc', reqs', err'⟩ := out
                  simp [connLoop, hs1, he, hm, hs2, he2, hm2, hr] at h
                  obtain ⟨-, h2, -⟩ := h
                  subst h2
                  exact hostAlternates_cons2 offset (offset + limit) reqs'
                    (ih (offset + limit + limit) acc' reqs' err' hr)

/-- The request trace of the integrations loop alternates hosts. -/
theorem intLoop_hostAlternates {α β : Type} (server : Req → Except String (Page α))
    (process : List α → List β) (limit : Nat) :
    ∀ (fuel offset : Nat) (acc : List β) (reqs : List Req) (err : Option String),
      intLoop server process limit fuel offset = some (acc, reqs, err) →
      hostAlternates reqs := by
  intro fuel
  induction fuel with
  | zero =>
    intro offset acc reqs err h
    exact absurd h (by simp [intLoop])
  | succ n ih =>
    intro offset acc reqs err h
    cases hs1 : server ⟨.primary, offset⟩ with
    | error e =>
      simp [intLoop, hs1] at h
      obtain ⟨-, h2, -⟩ := h
      subst h2
      exact hostAlternates_one offset
    | ok page =>
      cases he : page.items.isEmpty with
      | true =>
        simp [intLoop, hs1, he] at h
        obtain ⟨-, h2, -⟩ := h
        subst h2
        exact hostAlternates_one offset
      | false =>
        cases hm : page.hasMore with
        | false =>
          simp [intLoop, hs1, he, hm] at h
          obtain ⟨-, h2, -⟩ := h
          subst h2
          exact hostAlternates_one offset
        | true =>
          cases hs2 : server ⟨.secondary, offset + limit⟩ with
          | error e =>
            simp [intLoop, hs1, he, hm, hs2] at h
            obtain ⟨-, h2, -⟩ := h
            subst h2
            exact hostAlternates_two offset (offset + limit)
          | ok page2 =>
            cases he2 : page2.items.isEmpty with
            | true =>
              simp [intLoop, hs1, he, hm, hs2, he2] at h
              obtain ⟨-, h2, -⟩ := h
              subst h2
              exact hostAlternates_two offset (offset + limit)
            | false =>
              cases hm2 : page2.hasMore with
              | false =>
                simp [intLoop, hs1, he, hm, hs2, he2, hm2] at h
                obtain ⟨-, h2, -⟩ := h
                subst h2
                exact hostAlternates_two offset (offset + limit)
              | true =>
                cases hr : intLoop server process limit n (offset + limit + limit) with
                | none =>
                  exact absurd h (by simp [intLoop, hs1, he, hm, hs2, he2, hm2, hr])
                | some out =>
                  obtain ⟨acc', reqs', err'⟩ := out
                  simp [intLoop, hs1, he, hm, hs2, he2, hm2, hr] at h
                  obtain ⟨-, h2, -⟩ := h
                  subst h2
                  exact hostAlternates_cons2 offset (offset + limit) reqs'
                    (ih (offset + limit + limit) acc' reqs' err' hr)

/-- C4 (amended): the integrations pipeline alternates hosts on successive
pages exactly like the connections pipeline: in every completed sweep of
either loop, requests at even 0-based positions go to the primary host and
requests at odd positions to the secondary host. -/
theorem C4_amended :
    (∀ (α β : Type) (server : Req → Except String (Page α))
      (process : List α → List β) (limit fuel offset : Nat)
      (acc : List β) (reqs : List Req) (err : Option String),
      intLoop server process limit fuel offset = some (acc, reqs, err) →
      hostAlternates reqs)
    ∧ (∀ (α β : Type) (server : Req → Except String (Page α))
      (process : List α → List β) (limit fuel offset : Nat)
      (acc : List β) (reqs : List Req) (err : Option String),
      connLoop server process limit fuel offset = some (acc, reqs, err) →
      hostAlternates reqs) :=
  ⟨fun _ _ server process limit fuel offset acc reqs err h =>
    intLoop_hostAlternates server process limit fuel offset acc reqs err h,
   fun _ _ server process limit fuel offset acc reqs err h =>
    connLoop_hostAlternates server process limit fuel offset acc reqs err h⟩

/-- C4 (amended) witness: the concrete two-request integrations sweep has an
alternating host trace. -/
theorem C4_witness :
    hostAlternates [⟨Host.primary, 0⟩, ⟨Host.secondary, 100⟩] :=
  C4_amended.1 Nat Nat c4Server (fun l => l) 100 1 0 [7]
    [⟨Host.primary, 0⟩, ⟨Host.secondary, 100⟩] Option.none rfl

/-- A per-file server: uploading B.iar raises a network-level ConnectionError;
every other file succeeds with status 200. -/
def c2Server : String → UpReq → Except String Nat := fun f _ =>
  if f = "B.iar" then .error "ConnectionError" else .ok 200

/-- C2: the claim says an Uploader exception for one file is caught and turned
into an ERROR outcome while other files still get outcomes. The batch loop has
no try/except: with files A, B, C where B raises, the whole batch evaluates to
the propagated exception — no outcome table at all, so neither A nor C gets an
outcome and B gets no ERROR row. -/
theorem C2_counterexample :
    import_integrations_from_directory "d" "https://h" "inst" "/p"
      ["A.iar", "B.iar", "C.iar"] c2Server = .error "ConnectionError"
    ∧ ∀ rows, import_integrations_from_directory "d" "https://h" "inst" "/p"
        ["A.iar", "B.iar", "C.iar"] c2Server ≠ .ok rows := by
  refine ⟨rfl, fun rows h => ?_⟩
  rw [show import_integrations_from_directory "d" "https://h" "inst" "/p"
      ["A.iar", "B.iar", "C.iar"] c2Server = .error "ConnectionError" from rfl] at h
  exact Except.noConfusion h

/-- When no request for a file raises, import_integration returns an outcome
row: every status path produces one. -/
theorem import_integration_ok (filepath base_url instanceName api_path : String)
    (server : UpReq → Except String Nat)
    (hok : ∀ r, ∃ st, server r = .ok st) :
    ∃ row reqs, import_integration filepath base_url instanceName api_path server
      = .ok (row, reqs) := by
  obtain ⟨st, hst⟩ := hok (upload_file_req filepath base_url instanceName api_path .post)
  by_cases h1 : st = 200 ∨ st = 204
  · exact ⟨[basename filepath, "SUCCESS", "Imported"],
      [upload_file_req filepath base_url instanceName api_path .post],
      by simp [import_integration, hst, h1]⟩
  · by_cases h2 : st = 409
    · obtain ⟨st2, hst2⟩ :=
        hok (upload_file_req filepath base_url instanceName api_path .put)
      by_cases h3 : st2 = 200 ∨ st2 = 204
      · exact ⟨[basename filepath, "SUCCESS", "Replaced"],
          [upload_file_req filepath base_url instanceName api_path .post,
           upload_file_req filepath base_url instanceName api_path .put],
          by simp [import_integration, hst, h1, h2, hst2, h3]⟩
      · exact ⟨[basename filepath, "ERROR", toString st2],
          [upload_file_req filepath base_url instanceName api_path .post,
           upload_file_req filepath base_url instanceName api_path .put],
          by simp [import_integration, hst, h1, h2, hst2, h3]⟩
    · exact ⟨[basename filepath, "ERROR", toString st],
        [upload_file_req filepath base_url instanceName api_path .post],
        by simp [import_integration, hst, h1, h2]⟩

/-- When no request raises, the batch loop yields one outcome row per .iar
file in the directory listing. -/
theorem importBatchGo_ok (directory base_url instanceName api_path : String)
    (server : String → UpReq → Except String Nat) :
    ∀ files : List String, (∀ f ∈ files, ∀ r, ∃ st, server f r = .ok st) →
    ∃ rows, importBatchGo directory base_url instanceName api_path server files = .ok rows
      ∧ rows.length = (files.filter (fun f => str_endswith f ".iar")).length := by
  intro files
  induction files with
  | nil => exact fun _ => ⟨[], rfl, rfl⟩
  | cons f fs ih =>
    intro hok
    obtain ⟨rows, h1, h2⟩ := ih (fun g hg r => hok g (List.mem_cons_of_mem _ hg) r)
    by_cases hf : str_endswith f ".iar" = true
    · obtain ⟨row, reqs, hrow⟩ := import_integration_ok (directory ++ "/" ++ f) base_url
        instanceName api_path (server f) (hok f (List.mem_cons_self f fs))
      refine ⟨row :: rows, by simp [importBatchGo, hf, hrow, h1], ?_⟩
      simp [List.filter_cons, hf, h2]
    · rw [Bool.not_eq_true] at hf
      refine ⟨rows, by simp [importBatchGo, hf, h1], ?_⟩
      simp [List.filter_cons, hf, h2]

/-- C2 (amended): provided no upload raises a network-level exception, the
batch produces the header row plus exactly one outcome row per .iar file; a
raised exception instead propagates out of the loop and aborts the whole
batch (as C2's counterexample shows on a concrete directory). -/
theorem C2_amended (directory base_url instanceName api_path : String)
    (files : List String) (server : String → UpReq → Except String Nat)
    (hok : ∀ f ∈ files, ∀ r, ∃ st, server f r = .ok st) :
    ∃ rows, import_integrations_from_directory directory base_url instanceName api_path
        files server = .ok (["INTEGRATION", "STATUS", "MESSAGE"] :: rows)
      ∧ rows.length = (files.filter (fun f => str_endswith f ".iar")).length := by
  obtain ⟨rows, h1, h2⟩ :=
    importBatchGo_ok directory base_url instanceName api_path server files hok
  exact ⟨rows, by simp [import_integrations_from_directory, h1], h2⟩

/-- C2 (amended) witness: with every upload answering 200, a listing with one
.iar file and one other file yields the header plus exactly one outcome row. -/
theorem C2_witness :
    ∃ rows, import_integrations_from_directory "d" "b" "i" "/p" ["A.iar", "x.txt"]
        (fun _ _ => .ok 200) = .ok (["INTEGRATION", "STATUS", "MESSAGE"] :: rows)
      ∧ rows.length = 1 := by
  obtain ⟨rows, h1, h2⟩ := C2_amended "d" "b" "i" "/p" ["A.iar", "x.txt"]
    (fun _ _ => .ok 200) (fun f hf r => ⟨200, rfl⟩)
  refine ⟨rows, h1, ?_⟩
  rw [h2]
  rfl

/-- C6: the upload outcome state machine. A POST answered 200 or 204 gives
SUCCESS "Imported" after exactly one request; 409 triggers exactly one PUT with
the identical payload to the same URL, whose 200/204 gives SUCCESS "Replaced"
and any other status gives ERROR with the status rendered as a string; any
other POST status gives ERROR with that status as a string and no retry. The
last two conjuncts state that the PUT request targets the same URL with the
same payload as the POST. -/
theorem C6_state_machine (filepath base_url instanceName api_path : String)
    (server : UpReq → Except String Nat) (st : Nat)
    (hpost : server (upload_file_req filepath base_url instanceName api_path .post)
      = .ok st) :
    ((st = 200 ∨ st = 204) →
      import_integration filepath base_url instanceName api_path server
        = .ok ([basename filepath, "SUCCESS", "Imported"],
            [upload_file_req filepath base_url instanceName api_path .post]))
    ∧ (st = 409 → ∀ st2 : Nat,
        server (upload_file_req filepath base_url instanceName api_path .put) = .ok st2 →
        ((st2 = 200 ∨ st2 = 204) →
          import_integration filepath base_url instanceName api_path server
            = .ok ([basename filepath, "SUCCESS", "Replaced"],
                [upload_file_req filepath base_url instanceName api_path .post,
                 upload_file_req filepath base_url instanceName api_path .put]))
        ∧ (¬(st2 = 200 ∨ st2 = 204) →
          import_integration filepath base_url instanceName api_path server
            = .ok ([basename filepath, "ERROR", toString st2],
                [upload_file_req filepath base_url instanceName api_path .post,
                 upload_file_req filepath base_url instanceName api_path .put])))
    ∧ (¬(st = 200 ∨ st = 204) → st ≠ 409 →
      import_integration filepath base_url instanceName api_path server
        = .ok ([basename filepath, "ERROR", toString st],
            [upload_file_req filepath base_url instanceName api_path .post]))
    ∧ (upload_file_req filepath base_url instanceName api_path .put).url
        = (upload_file_req filepath base_url instanceName api_path .post).url
    ∧ (upload_file_req filepath base_url instanceName api_path .put).payload
        = (upload_file_req filepath base_url instanceName api_path .post).payload := by
  refine ⟨?_, ?_, ?_, rfl, rfl⟩
  · intro h1
    simp [import_integration, hpost, h1]
  · intro h409 st2 hput
    subst h409
    constructor
    · intro h2
      simp [import_integration, hpost, hput, h2]
    · intro h2
      simp [import_integration, hpost, hput, h2]
  · intro h1 h2
    simp [import_integration, hpost, h1, h2]

/-- An upload server answering 409 to the POST and 204 to the PUT retry. -/
def c6Server : UpReq → Except String Nat := fun r =>
  if r.method = Method.post then .ok 409 else .ok 204

/-- C6 witness: on the conflict-then-replace server, the outcome is SUCCESS
"Replaced" with exactly the POST followed by one PUT. -/
theorem C6_witness :
    import_integration "d/A.iar" "b" "i" "/p" c6Server
      = .ok ([basename "d/A.iar", "SUCCESS", "Replaced"],
          [upload_file_req "d/A.iar" "b" "i" "/p" .post,
           upload_file_req "d/A.iar" "b" "i" "/p" .put]) :=
  ((C6_state_machine "d/A.iar" "b" "i" "/p" c6Server 409 rfl).2.1 rfl 204 rfl).1
    (Or.inr rfl)

/-- C8: a first response with status exactly 307 causes exactly one follow-up
GET to the Location header's URL — the request trace is [url, loc], two
requests in all — and a first response with any other status never triggers a
follow-up: the trace is just [url]. -/
theorem C8_redirect (server : String → Except String HResp) (url : String) (r : HResp)
    (h : server url = .ok r) :
    (r.status = 307 → ∀ loc, r.location = some loc →
      (fetch_data server url).2 = [url, loc])
    ∧ (r.status ≠ 307 → (fetch_data server url).2 = [url]) := by
  constructor
  · intro h307 loc hloc
    cases hs : server loc with
    | error e => simp [fetch_data, h, h307, hloc, hs]
    | ok r2 =>
      cases hrs : raise_for_status r2.status with
      | error e => simp [fetch_data, h, h307, hloc, hs, hrs]
      | ok u => simp [fetch_data, h, h307, hloc, hs, hrs]
  · intro h307
    cases hrs : raise_for_status r.status with
    | error e => simp [fetch_data, h, h307, hrs]
    | ok u => simp [fetch_data, h, h307, hrs]

/-- A server that answers the primary URL with a 307 redirect pointing at
https://alt.example/x and every other URL with a plain 200. -/
def c8Server : String → Except String HResp := fun u =>
  if u = "https://primary/x" then
    .ok ⟨307, some "https://alt.example/x", .str "redirected"⟩
  else .ok ⟨200, Option.none, .str "payload"⟩

/-- C8 witness: the 307 response produces exactly the two-request trace ending
at the Location URL; the 200 response produces a single-request trace. -/
theorem C8_witness :
    (fetch_data c8Server "https://primary/x").2
      = ["https://primary/x", "https://alt.example/x"]
    ∧ (fetch_data c8Server "https://alt.example/x").2 = ["https://alt.example/x"] :=
  ⟨(C8_redirect c8Server "https://primary/x"
      ⟨307, some "https://alt.example/x", .str "redirected"⟩ rfl).1 rfl
      "https://alt.example/x" rfl,
   (C8_redirect c8Server "https://alt.example/x"
      ⟨200, Option.none, .str "payload"⟩ rfl).2 (by decide)⟩

/-- A server answering every URL with status 301 and no Location header. -/
def c9Server : String → Except String HResp := fun _ =>
  .ok ⟨301, Option.none, .str "body"⟩

/-- C9: the claim says every non-2xx final status raises a fetch error.
response.raise_for_status only raises for 400..599, so a final 301 — not in
the 2xx range — returns the parsed body without any error. -/
theorem C9_counterexample :
    fetch_data c9Server "u" = (.ok (.str "body"), ["u"])
    ∧ ¬(200 ≤ 301 ∧ 301 < 300) :=
  ⟨rfl, by decide⟩

/-- C9 (amended): the fetch raises exactly for a final status (after at most
one 307 hop) in 400..599, carrying that status; every other final status —
all of 2xx, but also 1xx and non-307 3xx — returns the parsed body without
error. -/
theorem C9_amended (server : String → Except String HResp) (url : String) (r : HResp)
    (h : server url = .ok r) :
    (r.status ≠ 307 →
      (400 ≤ r.status ∧ r.status < 600 →
        (fetch_data server url).1 = .error (.http r.status))
      ∧ (¬(400 ≤ r.status ∧ r.status < 600) →
        (fetch_data server url).1 = .ok r.body))
    ∧ (r.status = 307 → ∀ loc r2, r.location = some loc → server loc = .ok r2 →
      (400 ≤ r2.status ∧ r2.status < 600 →
        (fetch_data server url).1 = .error (.http r2.status))
      ∧ (¬(400 ≤ r2.status ∧ r2.status < 600) →
        (fetch_data server url).1 = .ok r2.body)) := by
  constructor
  · intro h307
    constructor
    · intro hc
      simp [fetch_data, h, h307, raise_for_status, hc]
    · intro hc
      simp [fetch_data, h, h307, raise_for_status, hc]
  · intro h307 loc r2 hloc hs
    constructor
    · intro hc
      simp [fetch_data, h, h307, hloc, hs, raise_for_status, hc]
    · intro hc
      simp [fetch_data, h, h307, hloc, hs, raise_for_status, hc]

/-- A server answering every URL with a plain 404. -/
def c9aServer : String → Except String HResp := fun _ =>
  .ok ⟨404, Option.none, .str "not found"⟩

/-- C9 (amended) witness: a final 404 raises the HTTP error carrying 404,
while a final 301 returns the parsed body without error. -/
theorem C9_witness :
    (fetch_data c9aServer "u").1 = .error (.http 404)
    ∧ (fetch_data c9Server "u").1 = .ok (.str "body") :=
  ⟨((C9_amended c9aServer "u" ⟨404, Option.none, .str "not found"⟩ rfl).1
      (by decide)).1 (by decide),
   ((C9_amended c9Server "u" ⟨301, Option.none, .str "body"⟩ rfl).1
      (by decide)).2 (by decide)⟩

/-- C10: ensure_https leaves an input already starting with "https://"
unchanged, and on any other input prepends "https://" to the input with all
leading characters from the set h, t, p, colon, slash removed — the behaviour
the claim describes, stated through the claim's own reformulation
ensure_https_claimed (which matches the source definition on every input). -/
theorem C10_ensure_https (s : String) :
    ensure_https s = ensure_https_claimed s
    ∧ (str_startswith s "https://" = true → ensure_https s = s) := by
  have hpred : (fun c : Char => decide (c = 'h' ∨ c = 't' ∨ c = 'p' ∨ c = ':' ∨ c = '/'))
      = fun c : Char => decide (c ∈ ['h', 't', 'p', ':', '/']) := by
    funext c
    simp [List.mem_cons]
  constructor
  · unfold ensure_https ensure_https_claimed
    rw [hpred]
  · intro h
    simp [ensure_https, h]

/-- C10 witness: "https://x" is unchanged, and on "http://host.example" the
lstrip set also eats the leading h of the host, matching the claimed
reformulation ("https://ost.example"). -/
theorem C10_witness :
    ensure_https "https://x" = "https://x"
    ∧ ensure_https "http://host.example" = ensure_https_claimed "http://host.example"
    ∧ ensure_https_claimed "http://host.example" = "https://ost.example" :=
  ⟨(C10_ensure_https "https://x").2 rfl,
   (C10_ensure_https "http://host.example").1,
   rfl⟩
